import Mathlib

/-!
Verification of the synchronization-and-resilience core of the
exchange-shared repository: the token-bucket rate limiter
(src/services/rate_limiter.rs), the shared cache service
(src/services/redis_cache.rs), and the swap CRUD layer
(src/modules/swap/crud.rs) with its retry executor, staleness gate,
sync loop and quote normalization.

Machine integers are embedded as Nat with explicit reductions modulo
2 ^ 32 and 2 ^ 64 where the Rust u32 and u64 arithmetic can overflow;
the embedding follows release-mode (wrapping) semantics, which is also
where the wrapping subtraction in TokenBucket.refill shows up (a debug
build would panic at the same inputs). Fallible operations are embedded
as Except values, and the external collaborators (the Redis store, the
relational store, the upstream HTTP client) are passed in as explicit
oracles describing the outcome of each interaction.

Floating-point amounts from the quote path are modelled as rationals,
and string parsing of numeric fields is abstracted into Option-valued
fields (none means the field was absent or unparseable, matching the
unwrap_or defaults in the source).
-/

-- =============================================================================
-- TokenBucket (src/services/rate_limiter.rs)
-- =============================================================================

/-- State of the token bucket as persisted per rate-limit key.
Fields mirror the Rust struct: tokens and capacity and refill_rate are
u32 values, last_refill is a u64 unix timestamp in seconds. -/
structure TokenBucket where
  tokens : Nat
  last_refill : Nat
  capacity : Nat
  refill_rate : Nat
  deriving DecidableEq

/-- TokenBucket.refill with the clock reading passed explicitly.
The source computes
  time_passed = now - self.last_refill          (u64 subtraction)
  tokens_to_add = (time_passed * refill_rate as u64) as u32
and, when tokens_to_add > 0, sets
  tokens = (tokens + tokens_to_add).min(capacity)   (u32 addition)
  last_refill = now.
The u64 subtraction and multiplication wrap modulo 2 ^ 64 in release
builds, the cast to u32 truncates modulo 2 ^ 32, and the u32 addition
wraps modulo 2 ^ 32; the embedding makes each reduction explicit. -/
def TokenBucket.refill (now : Nat) (b : TokenBucket) : TokenBucket :=
  let time_passed := (now + 2 ^ 64 - b.last_refill) % 2 ^ 64
  let tokens_to_add := time_passed * b.refill_rate % 2 ^ 64 % 2 ^ 32
  if tokens_to_add > 0 then
    { b with
      tokens := min ((b.tokens + tokens_to_add) % 2 ^ 32) b.capacity
      last_refill := now }
  else
    b

/-- TokenBucket.try_consume: refill at the given clock reading, then
consume n tokens when available. Returns the success flag together with
the updated bucket. -/
def TokenBucket.try_consume (now n : Nat) (b : TokenBucket) : Bool × TokenBucket :=
  let b2 := b.refill now
  if n ≤ b2.tokens then
    (true, { b2 with tokens := b2.tokens - n })
  else
    (false, b2)

/-- Run a finite sequence of try_consume operations; each list entry is
a pair of the clock reading observed inside that call and the number of
tokens requested. -/
def TokenBucket.runOps (b : TokenBucket) (ops : List (Nat × Nat)) : TokenBucket :=
  ops.foldl (fun s p => (s.try_consume p.1 p.2).2) b

-- =============================================================================
-- RedisService (src/services/redis_cache.rs)
-- =============================================================================

/-- Model of the external Redis store visible to this service: a list of
(key, value, expiry-time) entries, newest first. A key is live at time
now when some entry for it has expiry strictly after now, matching EX
semantics where a key set with EX ttl at time t expires at time t + ttl. -/
def kvLookup (s : List (String × String × Nat)) (now : Nat) (k : String) : Option String :=
  match s.find? (fun e => e.1 == k && decide (now < e.2.2)) with
  | some e => some e.2.1
  | none => none

/-- RedisService.try_lock: issues SET key "locked" NX EX ttl, which per
the SET NX contract documented in the source stores the value only when
the key is currently absent, and reports whether the value was stored. -/
def try_lock (now : Nat) (s : List (String × String × Nat)) (k : String) (ttl : Nat) :
    Bool × List (String × String × Nat) :=
  match kvLookup s now k with
  | some _ => (false, s)
  | none => (true, (k, "locked", now + ttl) :: s)

/-- Run a sequence of try_lock calls on one key; each list entry is a
pair of the call time and the requested ttl. Returns the list of
results in call order together with the final store. -/
def runLocks (k : String) : List (Nat × Nat) → List (String × String × Nat) →
    List Bool × List (String × String × Nat)
  | [], s => ([], s)
  | (t, ttl) :: rest, s =>
    let r := try_lock t s k ttl
    let rs := runLocks k rest r.2
    (r.1 :: rs.1, rs.2)

/-- RedisService.get_or_set_json with the cache backend and the fetch
passed as outcome oracles. Every fallible step in the source is chained
with the question-mark operator: a cache read error, a fetch error and
a cache store error are all propagated to the caller. -/
def get_or_set_json {α : Type} (cacheGet : Except String (Option α))
    (fetch : Except String α) (cacheSet : α → Except String Unit) : Except String α :=
  match cacheGet with
  | .error e => .error e
  | .ok (some cached) => .ok cached
  | .ok none =>
    match fetch with
    | .error e => .error e
    | .ok data =>
      match cacheSet data with
      | .error e => .error e
      | .ok _ => .ok data

-- =============================================================================
-- SwapError (src/modules/swap/crud.rs)
-- =============================================================================

/-- The error enum of the swap CRUD layer, mirrored constructor for
constructor; the f64 payloads of AmountOutOfRange are modelled as
rationals. -/
inductive SwapError where
  | ProviderNotFound
  | CurrencyNotFound
  | PairNotAvailable
  | AmountOutOfRange (min max : ℚ)
  | InvalidAddress
  | SwapNotFound
  | ProviderUnavailable (msg : String)
  | DatabaseError (e : String)
  | ExternalApiError (e : String)
  | RedisError (e : String)
  deriving DecidableEq

/-- The From TrocadorError for SwapError impl: every upstream client
error is wrapped as ExternalApiError of its rendered message. The
TrocadorError itself is modelled by that message, since the CRUD layer
only ever inspects its to_string form. -/
def swapErrorFromTrocador (e : String) : SwapError :=
  SwapError.ExternalApiError e

instance {ε α : Type} [DecidableEq ε] [DecidableEq α] : DecidableEq (Except ε α)
  | .error a, .error b =>
    if h : a = b then .isTrue (by rw [h]) else .isFalse (by simp [h])
  | .error _, .ok _ => .isFalse (by simp)
  | .ok _, .error _ => .isFalse (by simp)
  | .ok a, .ok b =>
    if h : a = b then .isTrue (by rw [h]) else .isFalse (by simp [h])

-- =============================================================================
-- Retry executor (SwapCrud::call_trocador_with_retry)
-- =============================================================================

/-- Whether the character sequence needle occurs at the head of hay. -/
def charsStartWith : List Char → List Char → Bool
  | [], _ => true
  | _ :: _, [] => false
  | a :: as, b :: bs => a == b && charsStartWith as bs

/-- Whether the character sequence needle occurs contiguously anywhere
in hay. -/
def charsContain (needle : List Char) : List Char → Bool
  | [] => needle.isEmpty
  | c :: rest => charsStartWith needle (c :: rest) || charsContain needle rest

/-- Embedding of Rust str::contains for string patterns: substring
containment. -/
def strContains (hay needle : String) : Bool :=
  charsContain needle.toList hay.toList

/-- The rate-limit classification of the retry executor, applied to the
rendered error message: the source tests, case sensitively, for the
substrings "Rate limit", "rate limit", "429" and "Too Many Requests". -/
def is_rate_limit (msg : String) : Bool :=
  strContains msg "Rate limit" || strContains msg "rate limit" ||
    strContains msg "429" || strContains msg "Too Many Requests"

/-- The retry loop of call_trocador_with_retry. The operation is
modelled as a map from the attempt index (equal to the current retry
counter) to that attempt's outcome. In the source the loop keeps a
retries counter and retries while is_rate_limit holds and
retries < max_retries; here the loop recurses on
remaining = max_retries - retries, which is the same guard (remaining
is positive exactly when retries < max_retries). After a retry the
counter has been incremented to retries + 1 and the slept delay is
2 ^ (retries + 1 - 1) seconds. The returned pair records the sequence
of sleep durations in seconds alongside the final result, so that the
backoff schedule is part of the observable behaviour. -/
def call_trocador_with_retry_go {α : Type} (f : Nat → Except String α) :
    Nat → Nat → List Nat × Except SwapError α
  | retries, remaining =>
    match f retries, remaining with
    | .ok v, _ => ([], .ok v)
    | .error e, 0 => ([], .error (swapErrorFromTrocador e))
    | .error e, rem + 1 =>
      if is_rate_limit e then
        let delay_secs := 2 ^ (retries + 1 - 1)
        let rest := call_trocador_with_retry_go f (retries + 1) rem
        (delay_secs :: rest.1, rest.2)
      else
        ([], .error (swapErrorFromTrocador e))

/-- SwapCrud::call_trocador_with_retry: max_retries is 3 and the retry
counter starts at 0, so 3 retries remain. -/
def call_trocador_with_retry {α : Type} (f : Nat → Except String α) :
    List Nat × Except SwapError α :=
  call_trocador_with_retry_go f 0 3

-- =============================================================================
-- Staleness gate (SwapCrud::should_sync_currencies / should_sync_providers)
-- =============================================================================

/-- chrono Duration::num_minutes: the number of whole minutes in the
duration, i64 division truncating toward zero. -/
def num_minutes (secs : Int) : Int :=
  secs.tdiv 60

/-- The staleness check shared by should_sync_currencies and
should_sync_providers: the optional argument is the MAX(last_synced_at)
read from the collection (none when no row or no timestamp exists), the
second argument is the current time; both are unix seconds. The source
returns true when the cursor is missing, and otherwise tests
cache_age.num_minutes() > 5. -/
def should_sync (last_sync : Option Int) (now : Int) : Bool :=
  match last_sync with
  | some t => num_minutes (now - t) > 5
  | none => true

-- =============================================================================
-- Sync loop (SwapCrud::sync_currencies_from_trocador / sync_providers_from_trocador)
-- =============================================================================

/-- Upsert of a single fetched item. The relational store is an oracle
mapping the item to none on success or to the database error message on
failure; the source wraps that failure as SwapError::DatabaseError. -/
def upsert_from_trocador {α : Type} (db : α → Option String) (x : α) : Except SwapError Unit :=
  match db x with
  | some e => .error (SwapError.DatabaseError e)
  | none => .ok ()

/-- The upsert loop of the sync functions: items are upserted in order,
the counter increments once per successful upsert, and the first
failure aborts the loop. -/
def sync_loop {α : Type} (db : α → Option String) : List α → Nat → Except SwapError Nat
  | [], n => .ok n
  | x :: xs, n =>
    match upsert_from_trocador db x with
    | .error e => .error e
    | .ok _ => sync_loop db xs (n + 1)

/-- sync_currencies_from_trocador / sync_providers_from_trocador: fetch
the full upstream collection (outcome passed as an oracle; a fetch
error is propagated), then upsert each item, returning the count. -/
def sync_from_trocador {α : Type} (fetch : Except SwapError (List α))
    (db : α → Option String) : Except SwapError Nat :=
  match fetch with
  | .error e => .error e
  | .ok items => sync_loop db items 0

-- =============================================================================
-- Quote normalization (SwapCrud::get_rates)
-- =============================================================================

/-- The rate type of a quote request. -/
inductive RateType where
  | Floating
  | Fixed
  deriving DecidableEq

/-- One upstream quote as consumed by get_rates, after string parsing:
amount_to and waste carry none when the field was absent or failed to
parse (the source then substitutes 0.0 via unwrap_or), min_amount and
max_amount carry none when absent, kycrating is the optional rating
letter, eta is the optional ETA already cast to whole minutes. -/
structure TrocadorQuote where
  provider : String
  amount_to : Option ℚ
  waste : Option ℚ
  min_amount : Option ℚ
  max_amount : Option ℚ
  kycrating : Option String
  eta : Option Nat
  deriving DecidableEq

/-- The normalized per-quote response shape produced by get_rates. -/
structure RateResponse where
  provider : String
  provider_name : String
  rate : ℚ
  estimated_amount : ℚ
  min_amount : ℚ
  max_amount : ℚ
  network_fee : ℚ
  provider_fee : ℚ
  platform_fee : ℚ
  total_fee : ℚ
  rate_type : RateType
  kyc_required : Bool
  kyc_rating : Option String
  eta_minutes : Option Nat
  deriving DecidableEq

/-- The per-quote transformation inside get_rates: amounts default to
0, the rate is the estimated receive amount divided by the requested
amount, the fee fields are taken from waste, kyc_required tests the
rating (defaulted to "D" when missing) against "A", and a missing eta
is replaced by 15 minutes via the or(Some(15)) in the source. -/
def rate_of_quote (amount : ℚ) (rate_type : Option RateType) (q : TrocadorQuote) : RateResponse :=
  let amount_to := q.amount_to.getD 0
  let waste := q.waste.getD 0
  let total_fee := waste
  { provider := q.provider
    provider_name := q.provider
    rate := amount_to / amount
    estimated_amount := amount_to
    min_amount := q.min_amount.getD 0
    max_amount := q.max_amount.getD 0
    network_fee := 0
    provider_fee := total_fee
    platform_fee := 0
    total_fee := total_fee
    rate_type := rate_type.getD RateType.Floating
    kyc_required := q.kycrating.getD "D" != "A"
    kyc_rating := q.kycrating
    eta_minutes := q.eta.or (some 15) }

/-- The descending-by-estimated-amount ordering used by the sort in
get_rates: a precedes b when the estimated amount of b is at most that
of a. -/
def rates_desc_rel : RateResponse → RateResponse → Prop :=
  fun a b => b.estimated_amount ≤ a.estimated_amount

instance : DecidableRel rates_desc_rel :=
  fun a b => inferInstanceAs (Decidable (b.estimated_amount ≤ a.estimated_amount))

instance : IsTotal RateResponse rates_desc_rel :=
  ⟨fun a b => le_total b.estimated_amount a.estimated_amount⟩

instance : IsTrans RateResponse rates_desc_rel :=
  ⟨fun _ _ _ hab hbc => le_trans hbc hab⟩

/-- The quote list produced by get_rates: map the per-quote
transformation over the upstream quotes, then sort by descending
estimated amount. Rust sort_by is documented as a stable sort, and a
stable sort under a total preorder comparator is extensionally unique,
so it is embedded as the stable insertion sort. -/
def get_rates_list (amount : ℚ) (rate_type : Option RateType)
    (qs : List TrocadorQuote) : List RateResponse :=
  List.insertionSort rates_desc_rel (qs.map (rate_of_quote amount rate_type))

/-- The cache-aside skeleton of get_rates. The first argument is the
outcome of the cache read when a Redis service is configured (none when
it is not): a hit returns the cached response at once, while a miss and
a read error both fall through to the compute step (the upstream fetch,
transformation and sort). The final cache write only logs its failure,
so the computed response is returned whatever the store outcome is. -/
def get_rates_cached {ρ : Type} (cacheGet : Option (Except String (Option ρ)))
    (compute : Except SwapError ρ) (cacheSet : ρ → Except String Unit) : Except SwapError ρ :=
  match cacheGet with
  | some (.ok (some cached)) => .ok cached
  | _ =>
    match compute with
    | .error e => .error e
    | .ok response =>
      match cacheSet response with
      | .error _ => .ok response
      | .ok _ => .ok response

/-- Sample upstream quote used as concrete witness input: full fields,
best KYC grade. -/
def sampleQuoteA : TrocadorQuote :=
  ⟨"alpha", some 5, some (1 / 2), some 1, some 100, some "A", none⟩

/-- Sample upstream quote used as concrete witness input: larger
estimate, missing waste, non-best KYC grade. -/
def sampleQuoteB : TrocadorQuote :=
  ⟨"beta", some 9, none, none, none, some "C", some 20⟩

/-- Sample upstream quote used as concrete witness input: estimate tied
with sampleQuoteA, missing KYC rating and ETA. -/
def sampleQuoteC : TrocadorQuote :=
  ⟨"gamma", some 5, some 2, none, none, none, none⟩

-- =============================================================================
-- Theorems
-- =============================================================================

theorem TokenBucket.try_consume_preserves (now n : Nat) (b : TokenBucket)
    (h : b.tokens ≤ b.capacity) :
    ((b.try_consume now n).2).tokens ≤ ((b.try_consume now n).2).capacity ∧
    ((b.try_consume now n).2).capacity = b.capacity := by
  unfold TokenBucket.try_consume TokenBucket.refill
  dsimp only
  split <;> split
  all_goals simp_all
  all_goals omega

/-- C1: for every bucket with positive capacity and tokens at most
capacity, any finite sequence of try_consume operations, each refilling
at an arbitrary clock reading, keeps tokens within the capacity bound
(the lower bound 0 holds by the Nat embedding of u32), and leaves the
capacity itself unchanged. -/
theorem tokenBucket_tokens_within_capacity (b : TokenBucket)
    (hcap : 0 < b.capacity) (htok : b.tokens ≤ b.capacity) (ops : List (Nat × Nat)) :
    (b.runOps ops).tokens ≤ (b.runOps ops).capacity ∧
    (b.runOps ops).capacity = b.capacity := by
  induction ops generalizing b with
  | nil => exact ⟨htok, rfl⟩
  | cons p rest ih =>
    have step := TokenBucket.try_consume_preserves p.1 p.2 b htok
    have tail := ih ((b.try_consume p.1 p.2).2) (step.2 ▸ hcap) step.1
    have hrun : b.runOps (p :: rest) = ((b.try_consume p.1 p.2).2).runOps rest := by
      simp [TokenBucket.runOps]
    rw [hrun]
    exact ⟨tail.1, tail.2.trans step.2⟩

theorem tokenBucket_tokens_within_capacity_witness :
    0 < (10 : Nat) ∧ (10 : Nat) ≤ 10 ∧
    ((TokenBucket.runOps ⟨10, 0, 10, 1⟩ [(0, 3), (5, 100), (7, 9)]).tokens ≤
        (TokenBucket.runOps ⟨10, 0, 10, 1⟩ [(0, 3), (5, 100), (7, 9)]).capacity ∧
      (TokenBucket.runOps ⟨10, 0, 10, 1⟩ [(0, 3), (5, 100), (7, 9)]).capacity = 10) :=
  ⟨by decide, by decide,
    tokenBucket_tokens_within_capacity ⟨10, 0, 10, 1⟩ (by decide) (by decide)
      [(0, 3), (5, 100), (7, 9)]⟩

/-- C2: evaluation of refill at a clock reading earlier than
last_refill. On the bucket with tokens 0, last_refill 1, capacity 10,
refill_rate 1, a refill at time 0 makes the wrapping u64 subtraction
produce 2 ^ 64 - 1 elapsed seconds; the truncating cast yields
2 ^ 32 - 1 tokens to add, the bucket jumps to full capacity and
last_refill moves backward to 0, so the state is changed rather than
left untouched (a debug build would panic on the same input). -/
theorem refill_backward_clock_changes_state :
    TokenBucket.refill 0 ⟨0, 1, 10, 1⟩ = ⟨10, 0, 10, 1⟩ ∧
    TokenBucket.refill 0 ⟨0, 1, 10, 1⟩ ≠ ⟨0, 1, 10, 1⟩ := by decide

/-- C3: evaluation of try_consume at an input where the claimed refill
formula and the code disagree. With tokens 0, last_refill 0,
capacity 10, refill_rate 2147483648 and a consume of 1 token at time 2,
the elapsed-times-rate product is 2 * 2 ^ 31 = 2 ^ 32; the claimed
refill of min(2 ^ 32, capacity) = 10 tokens would make the consume
succeed, but the cast of the u64 product to u32 truncates it to 0, no
token is added, and the consume fails leaving the bucket unchanged. -/
theorem try_consume_truncating_cast :
    TokenBucket.try_consume 2 1 ⟨0, 0, 10, 2147483648⟩ =
      (false, ⟨0, 0, 10, 2147483648⟩) := by decide

/-- C4, counterexample to the claimed classification: the message
"too many requests" (exact lowercase) is one the claim classifies as
rate limiting, yet the source tests for the case-sensitive substrings
"Rate limit", "rate limit", "429" and "Too Many Requests", none of
which occurs in it; an operation failing with that message is returned
at once with no retry and no sleep instead of being retried. -/
theorem retry_lowercase_message_not_retried :
    is_rate_limit "too many requests" = false ∧
    call_trocador_with_retry (fun _ => (.error "too many requests" : Except String Nat)) =
      ([], .error (SwapError.ExternalApiError "too many requests")) := by decide

/-- C4 as amended: with the classification corrected to the source's
case-sensitive substrings ("Rate limit", "rate limit", "429",
"Too Many Requests"), the executor returns a first-attempt success
directly; returns a non-retryable error immediately, wrapped, with no
sleep; sleeps 1s then 2s before retries that reach a success on the
third attempt; and after the third retry returns the last error
wrapped, having slept 1s, 2s and 4s. -/
theorem retry_policy (α : Type) :
    (∀ (f : Nat → Except String α) (v : α), f 0 = .ok v →
      call_trocador_with_retry f = ([], .ok v)) ∧
    (∀ (f : Nat → Except String α) (e : String), f 0 = .error e →
      is_rate_limit e = false →
      call_trocador_with_retry f = ([], .error (SwapError.ExternalApiError e))) ∧
    (∀ (f : Nat → Except String α) (e0 e1 : String) (v : α),
      f 0 = .error e0 → is_rate_limit e0 = true →
      f 1 = .error e1 → is_rate_limit e1 = true →
      f 2 = .ok v →
      call_trocador_with_retry f = ([1, 2], .ok v)) ∧
    (∀ (f : Nat → Except String α) (e0 e1 e2 e3 : String),
      f 0 = .error e0 → is_rate_limit e0 = true →
      f 1 = .error e1 → is_rate_limit e1 = true →
      f 2 = .error e2 → is_rate_limit e2 = true →
      f 3 = .error e3 →
      call_trocador_with_retry f = ([1, 2, 4], .error (SwapError.ExternalApiError e3))) := by
  refine ⟨?_, ?_, ?_, ?_⟩
  · intro f v h
    simp [call_trocador_with_retry, call_trocador_with_retry_go, h]
  · intro f e h hc
    simp [call_trocador_with_retry, call_trocador_with_retry_go, h, hc,
      swapErrorFromTrocador]
  · intro f e0 e1 v h0 hc0 h1 hc1 h2
    simp [call_trocador_with_retry, call_trocador_with_retry_go, h0, hc0, h1, hc1, h2]
  · intro f e0 e1 e2 e3 h0 hc0 h1 hc1 h2 hc2 h3
    simp [call_trocador_with_retry, call_trocador_with_retry_go, h0, hc0, h1, hc1,
      h2, hc2, h3, swapErrorFromTrocador]

theorem retry_policy_witness :
    call_trocador_with_retry (fun _ => (.ok 7 : Except String Nat)) = ([], .ok 7) ∧
    call_trocador_with_retry (fun _ => (.error "bad address" : Except String Nat)) =
      ([], .error (SwapError.ExternalApiError "bad address")) ∧
    call_trocador_with_retry
        (fun n => if n < 2 then (.error "Rate limit hit" : Except String Nat) else .ok 9) =
      ([1, 2], .ok 9) ∧
    call_trocador_with_retry (fun _ => (.error "HTTP 429" : Except String Nat)) =
      ([1, 2, 4], .error (SwapError.ExternalApiError "HTTP 429")) :=
  ⟨(retry_policy Nat).1 _ 7 rfl,
    (retry_policy Nat).2.1 _ "bad address" rfl (by decide),
    (retry_policy Nat).2.2.1 _ "Rate limit hit" "Rate limit hit" 9 rfl (by decide) rfl
      (by decide) rfl,
    (retry_policy Nat).2.2.2 _ "HTTP 429" "HTTP 429" "HTTP 429" "HTTP 429" rfl (by decide)
      rfl (by decide) rfl (by decide) rfl⟩

/-- C7, counterexample: after exhausting the retries on failures that
are all rate-limit-classified, the surfaced error is
SwapError.ExternalApiError carrying the message, which is exactly the
variant surfaced for a failure that was never rate-limit-classified;
there is no distinct rate-limited error kind in the SwapError enum. -/
theorem retry_exhaustion_same_kind :
    (call_trocador_with_retry (fun _ => (.error "429" : Except String Nat))).2 =
      .error (SwapError.ExternalApiError "429") ∧
    (call_trocador_with_retry (fun _ => (.error "connection reset" : Except String Nat))).2 =
      .error (SwapError.ExternalApiError "connection reset") := by decide

/-- C7 as amended: when every observed failure is rate-limit-classified
and the retries are exhausted, the caller receives
SwapError.ExternalApiError wrapping the last message, and a
non-retryable failure likewise surfaces as SwapError.ExternalApiError;
the two cases are distinguishable only by message text, not by a
distinct error kind. -/
theorem retry_exhaustion_error_kind (α : Type) :
    (∀ (f : Nat → Except String α) (e0 e1 e2 e3 : String),
      f 0 = .error e0 → is_rate_limit e0 = true →
      f 1 = .error e1 → is_rate_limit e1 = true →
      f 2 = .error e2 → is_rate_limit e2 = true →
      f 3 = .error e3 → is_rate_limit e3 = true →
      (call_trocador_with_retry f).2 = .error (SwapError.ExternalApiError e3)) ∧
    (∀ (f : Nat → Except String α) (e : String),
      f 0 = .error e → is_rate_limit e = false →
      (call_trocador_with_retry f).2 = .error (SwapError.ExternalApiError e)) := by
  constructor
  · intro f e0 e1 e2 e3 h0 hc0 h1 hc1 h2 hc2 h3 hc3
    simp [call_trocador_with_retry, call_trocador_with_retry_go, h0, hc0, h1, hc1,
      h2, hc2, h3, hc3, swapErrorFromTrocador]
  · intro f e h hc
    simp [call_trocador_with_retry, call_trocador_with_retry_go, h, hc,
      swapErrorFromTrocador]

theorem retry_exhaustion_error_kind_witness :
    (call_trocador_with_retry (fun _ => (.error "rate limit reached" : Except String Nat))).2 =
      .error (SwapError.ExternalApiError "rate limit reached") ∧
    (call_trocador_with_retry (fun _ => (.error "boom" : Except String Nat))).2 =
      .error (SwapError.ExternalApiError "boom") :=
  ⟨(retry_exhaustion_error_kind Nat).1 _ "rate limit reached" "rate limit reached"
      "rate limit reached" "rate limit reached" rfl (by decide) rfl (by decide) rfl
      (by decide) rfl (by decide),
    (retry_exhaustion_error_kind Nat).2 _ "boom" rfl (by decide)⟩

/-- C5, counterexample: 330 seconds after the last sync the age exceeds
5 minutes (330 > 300), so the claim requires the staleness check to
return true, but the source tests cache_age.num_minutes() > 5 and the
truncated whole-minute age is 5, so it returns false. -/
theorem staleness_boundary_five_and_a_half_minutes :
    should_sync (some 0) 330 = false ∧ ((330 : Int) - 0 > 5 * 60) := by decide

/-- C5 as amended: the staleness check returns true when no last-synced
timestamp exists, and otherwise returns true exactly when the age
truncated to whole minutes exceeds 5, that is when now minus the cursor
is at least 360 seconds (6 minutes). -/
theorem staleness_gate_minutes (t now : Int) :
    should_sync none now = true ∧
    (should_sync (some t) now = true ↔ 360 ≤ now - t) := by
  refine ⟨rfl, ?_⟩
  show (decide (5 < num_minutes (now - t)) = true) ↔ _
  rw [decide_eq_true_iff]
  unfold num_minutes
  rcases le_or_lt 0 (now - t) with h | h
  · rw [Int.tdiv_eq_ediv h (by norm_num)]
    omega
  · have h2 : (now - t).tdiv 60 = -((-(now - t)).tdiv 60) := by
      rw [Int.neg_tdiv, neg_neg]
    rw [h2, Int.tdiv_eq_ediv (by omega) (by norm_num)]
    omega

theorem staleness_gate_minutes_witness :
    (should_sync none 360 = true ∧
      (should_sync (some 0) 360 = true ↔ (360 : Int) ≤ 360 - 0)) ∧
    (should_sync none 359 = true ∧
      (should_sync (some 0) 359 = true ↔ (360 : Int) ≤ 359 - 0)) :=
  ⟨staleness_gate_minutes 0 360, staleness_gate_minutes 0 359⟩

/-- C6, counterexample: get_or_set_json with a failing cache read does
not degrade to a miss; the read error is propagated and the fetch
result is never returned, although the fetch would succeed with 7. -/
theorem get_or_set_json_read_error_terminal :
    get_or_set_json (α := Nat) (.error "cache down") (.ok 7) (fun _ => .ok ()) =
      .error "cache down" ∧
    get_or_set_json (α := Nat) (.error "cache down") (.ok 7) (fun _ => .ok ()) ≠
      .ok 7 := by decide

/-- C6 as amended: in get_rates a failed cache read behaves exactly as
an absent cache (the fetch runs and its result is returned) and a
failed cache write is a no-op, while get_or_set_json propagates both a
cache read error and a cache store error to its caller instead of
degrading. -/
theorem cache_unavailability_behavior (ρ : Type) :
    (∀ (e : String) (compute : Except SwapError ρ) (st : ρ → Except String Unit),
      get_rates_cached (some (.error e)) compute st = get_rates_cached none compute st) ∧
    (∀ (e : String) (v : ρ) (st : ρ → Except String Unit),
      get_rates_cached (some (.error e)) (.ok v) st = .ok v) ∧
    (∀ (v : ρ) (e : String),
      get_rates_cached (some (.ok none)) (.ok v) (fun _ => .error e) = .ok v) ∧
    (∀ (e : String) (fetch : Except String ρ) (st : ρ → Except String Unit),
      get_or_set_json (.error e) fetch st = .error e) ∧
    (∀ (v : ρ) (e : String),
      get_or_set_json (.ok none) (.ok v) (fun _ => .error e) = .error e) := by
  refine ⟨?_, ?_, ?_, ?_, ?_⟩
  · intro e compute st
    cases compute with
    | error e2 => rfl
    | ok v => simp only [get_rates_cached]
  · intro e v st
    simp only [get_rates_cached]
    cases st v <;> rfl
  · intro v e
    rfl
  · intro e fetch st
    rfl
  · intro v e
    rfl

theorem cache_unavailability_behavior_witness :
    get_rates_cached (ρ := Nat) (some (.error "down")) (.ok 3) (fun _ => .ok ()) = .ok 3 ∧
    get_rates_cached (ρ := Nat) (some (.ok none)) (.ok 3) (fun _ => .error "down") = .ok 3 ∧
    get_or_set_json (α := Nat) (.ok none) (.ok 3) (fun _ => .error "down") = .error "down" :=
  ⟨(cache_unavailability_behavior Nat).2.1 "down" 3 (fun _ => .ok ()),
    (cache_unavailability_behavior Nat).2.2.1 3 "down",
    (cache_unavailability_behavior Nat).2.2.2.2 3 "down"⟩

theorem sync_loop_all_ok {α : Type} (db : α → Option String) (items : List α) (n : Nat)
    (h : ∀ x ∈ items, db x = none) : sync_loop db items n = .ok (n + items.length) := by
  induction items generalizing n with
  | nil => rfl
  | cons x xs ih =>
    have hx := h x (List.mem_cons_self x xs)
    have hxs : ∀ y ∈ xs, db y = none := fun y hy => h y (List.mem_cons_of_mem x hy)
    simp only [sync_loop, upsert_from_trocador, hx, ih (n + 1) hxs, List.length_cons]
    congr 1
    omega

theorem sync_loop_first_failure {α : Type} (db : α → Option String) (pre : List α) (x : α)
    (post : List α) (e : String) (n : Nat) (hpre : ∀ y ∈ pre, db y = none)
    (hx : db x = some e) :
    sync_loop db (pre ++ x :: post) n = .error (SwapError.DatabaseError e) := by
  induction pre generalizing n with
  | nil => simp only [List.nil_append, sync_loop, upsert_from_trocador, hx]
  | cons y ys ih =>
    have hy := hpre y (List.mem_cons_self y ys)
    have hys : ∀ z ∈ ys, db z = none := fun z hz => hpre z (List.mem_cons_of_mem y hz)
    simp only [List.cons_append, sync_loop, upsert_from_trocador, hy]
    exact ih (n + 1) hys

/-- C8: when the upstream fetch succeeds and every upsert succeeds, the
sync returns exactly the number of fetched items, upserted in order;
when the upsert of some item fails, the sync aborts at that item and
returns the database error, with no count or partial bookkeeping. -/
theorem sync_counts_and_aborts (α : Type) :
    (∀ (db : α → Option String) (items : List α), (∀ x ∈ items, db x = none) →
      sync_from_trocador (.ok items) db = .ok items.length) ∧
    (∀ (db : α → Option String) (pre : List α) (x : α) (post : List α) (e : String),
      (∀ y ∈ pre, db y = none) → db x = some e →
      sync_from_trocador (.ok (pre ++ x :: post)) db =
        .error (SwapError.DatabaseError e)) := by
  constructor
  · intro db items h
    simp only [sync_from_trocador, sync_loop_all_ok db items 0 h, Nat.zero_add]
  · intro db pre x post e hpre hx
    simp only [sync_from_trocador, sync_loop_first_failure db pre x post e 0 hpre hx]

theorem sync_counts_and_aborts_witness :
    sync_from_trocador (.ok [0, 1])
        (fun n : Nat => if n = 2 then some "duplicate key" else none) = .ok 2 ∧
    sync_from_trocador (.ok ([0, 1] ++ 2 :: [3]))
        (fun n : Nat => if n = 2 then some "duplicate key" else none) =
      .error (SwapError.DatabaseError "duplicate key") :=
  ⟨(sync_counts_and_aborts Nat).1 _ [0, 1] (by decide),
    (sync_counts_and_aborts Nat).2 _ [0, 1] 2 [3] "duplicate key" (by decide) (by decide)⟩

theorem filter_orderedInsert (v : ℚ) (a : RateResponse) (l : List RateResponse) :
    (List.orderedInsert rates_desc_rel a l).filter
        (fun x => decide (x.estimated_amount = v)) =
      ((a :: l).filter (fun x => decide (x.estimated_amount = v))) := by
  induction l with
  | nil => rfl
  | cons b l ih =>
    rw [List.orderedInsert]
    by_cases h : rates_desc_rel a b
    · rw [if_pos h]
    · rw [if_neg h]
      have hab : a.estimated_amount < b.estimated_amount := by
        simpa [rates_desc_rel, not_le] using h
      by_cases hb : b.estimated_amount = v
      · have ha : ¬(a.estimated_amount = v) := by
          intro hv
          rw [← hb] at hv
          exact absurd hv (ne_of_lt hab)
        simp [List.filter_cons, hb, ha, ih]
      · simp [List.filter_cons, hb, ih]

theorem filter_insertionSort (v : ℚ) (l : List RateResponse) :
    (List.insertionSort rates_desc_rel l).filter
        (fun x => decide (x.estimated_amount = v)) =
      l.filter (fun x => decide (x.estimated_amount = v)) := by
  induction l with
  | nil => rfl
  | cons a l ih =>
    rw [List.insertionSort, filter_orderedInsert]
    simp [List.filter_cons, ih]

/-- C9: in the quote list produced by get_rates, every entry's rate is
its estimated receive amount divided by the requested amount; the list
is a permutation of the per-quote transforms of the upstream quotes;
the transform takes the total fee from the waste field defaulting to 0
when absent, flags kyc_required unless the rating is the best grade
"A", and defaults a missing ETA to 15 minutes; the list is sorted by
estimated receive amount in descending order; and restricting the
output to the entries of any fixed estimated amount yields them in
input order (stability on ties). -/
theorem get_rates_normalization (amount : ℚ) (rt : Option RateType)
    (qs : List TrocadorQuote) :
    (∀ r ∈ get_rates_list amount rt qs, r.rate = r.estimated_amount / amount) ∧
    (get_rates_list amount rt qs).Perm (qs.map (rate_of_quote amount rt)) ∧
    (∀ q : TrocadorQuote,
      (rate_of_quote amount rt q).total_fee = q.waste.getD 0 ∧
      (rate_of_quote amount rt q).estimated_amount = q.amount_to.getD 0 ∧
      ((rate_of_quote amount rt q).kyc_required = false ↔ q.kycrating = some "A") ∧
      (rate_of_quote amount rt q).eta_minutes = some (q.eta.getD 15)) ∧
    List.Sorted rates_desc_rel (get_rates_list amount rt qs) ∧
    (∀ v : ℚ,
      (get_rates_list amount rt qs).filter (fun x => decide (x.estimated_amount = v)) =
        (qs.map (rate_of_quote amount rt)).filter
          (fun x => decide (x.estimated_amount = v))) := by
  refine ⟨?_, ?_, ?_, ?_, ?_⟩
  · intro r hr
    have hmem : r ∈ qs.map (rate_of_quote amount rt) :=
      (List.perm_insertionSort rates_desc_rel _).mem_iff.mp hr
    obtain ⟨q, hq, rfl⟩ := List.mem_map.mp hmem
    rfl
  · exact List.perm_insertionSort rates_desc_rel _
  · intro q
    refine ⟨rfl, rfl, ?_, ?_⟩
    · cases hk : q.kycrating with
      | none => simp [rate_of_quote, hk]
      | some s =>
        simp only [rate_of_quote, hk, Option.getD_some]
        constructor
        · intro hs
          have : s = "A" := by
            by_contra hne
            simp [bne_eq_false_iff_eq] at hs
            exact hne hs
          rw [this]
        · intro hs
          have : s = "A" := by injection hs
          simp [this]
    · cases he : q.eta with
      | none => simp [rate_of_quote, he]
      | some n => simp [rate_of_quote, he]
  · exact List.sorted_insertionSort rates_desc_rel _
  · intro v
    exact filter_insertionSort v _

theorem get_rates_normalization_witness :
    (∀ r ∈ get_rates_list 2 none [sampleQuoteA, sampleQuoteB, sampleQuoteC],
      r.rate = r.estimated_amount / 2) ∧
    (get_rates_list 2 none [sampleQuoteA, sampleQuoteB, sampleQuoteC]).Perm
      ([sampleQuoteA, sampleQuoteB, sampleQuoteC].map (rate_of_quote 2 none)) ∧
    (∀ q : TrocadorQuote,
      (rate_of_quote 2 none q).total_fee = q.waste.getD 0 ∧
      (rate_of_quote 2 none q).estimated_amount = q.amount_to.getD 0 ∧
      ((rate_of_quote 2 none q).kyc_required = false ↔ q.kycrating = some "A") ∧
      (rate_of_quote 2 none q).eta_minutes = some (q.eta.getD 15)) ∧
    List.Sorted rates_desc_rel
      (get_rates_list 2 none [sampleQuoteA, sampleQuoteB, sampleQuoteC]) ∧
    (∀ v : ℚ,
      (get_rates_list 2 none [sampleQuoteA, sampleQuoteB, sampleQuoteC]).filter
          (fun x => decide (x.estimated_amount = v)) =
        ([sampleQuoteA, sampleQuoteB, sampleQuoteC].map (rate_of_quote 2 none)).filter
          (fun x => decide (x.estimated_amount = v))) :=
  get_rates_normalization 2 none [sampleQuoteA, sampleQuoteB, sampleQuoteC]

theorem runLocks_held (k : String) (t0 ttl0 : Nat) (s : List (String × String × Nat))
    (rest : List (Nat × Nat))
    (h : ∀ p ∈ rest, t0 ≤ p.1 ∧ p.1 < t0 + ttl0) :
    runLocks k rest ((k, "locked", t0 + ttl0) :: s) =
      (rest.map (fun _ => false), (k, "locked", t0 + ttl0) :: s) := by
  induction rest with
  | nil => rfl
  | cons p rest ih =>
    obtain ⟨t, ttl⟩ := p
    obtain ⟨h1, h2⟩ := h (t, ttl) (List.mem_cons_self _ _)
    have hl : kvLookup ((k, "locked", t0 + ttl0) :: s) t k = some "locked" := by
      simp [kvLookup, List.find?, h2]
    simp [runLocks, try_lock, hl, ih (fun q hq => h q (List.mem_cons_of_mem _ hq))]

/-- C10: try_lock returns true exactly when no live value is stored
under the key at the call time; when a value is present it returns
false and leaves the store untouched; when the key is absent it stores
the lock value with expiry now + ttl and returns true; and in a
sequence of try_lock calls on one key, starting from a store where the
key is absent, with every later call at a time at or after the first
call and before the first lock's expiry, only the first call returns
true. -/
theorem try_lock_excludes :
    (∀ (now : Nat) (s : List (String × String × Nat)) (k : String) (ttl : Nat),
      ((try_lock now s k ttl).1 = true ↔ kvLookup s now k = none)) ∧
    (∀ (now : Nat) (s : List (String × String × Nat)) (k : String) (ttl : Nat)
        (v : String), kvLookup s now k = some v → try_lock now s k ttl = (false, s)) ∧
    (∀ (now : Nat) (s : List (String × String × Nat)) (k : String) (ttl : Nat),
      kvLookup s now k = none →
      try_lock now s k ttl = (true, (k, "locked", now + ttl) :: s)) ∧
    (∀ (s : List (String × String × Nat)) (k : String) (t0 ttl0 : Nat)
        (rest : List (Nat × Nat)),
      kvLookup s t0 k = none →
      (∀ p ∈ rest, t0 ≤ p.1 ∧ p.1 < t0 + ttl0) →
      (runLocks k ((t0, ttl0) :: rest) s).1 = true :: rest.map (fun _ => false)) := by
  refine ⟨?_, ?_, ?_, ?_⟩
  · intro now s k ttl
    cases hl : kvLookup s now k <;> simp [try_lock, hl]
  · intro now s k ttl v hl
    simp [try_lock, hl]
  · intro now s k ttl hl
    simp [try_lock, hl]
  · intro s k t0 ttl0 rest hl hrest
    simp [runLocks, try_lock, hl, runLocks_held k t0 ttl0 s rest hrest]

theorem try_lock_excludes_witness :
    ((try_lock 100 [] "lock:rates" 30).1 = true ↔ kvLookup [] 100 "lock:rates" = none) ∧
    (try_lock 110 [("lock:rates", "locked", 130)] "lock:rates" 5 =
      (false, [("lock:rates", "locked", 130)])) ∧
    (try_lock 100 [] "lock:rates" 30 = (true, [("lock:rates", "locked", 130)])) ∧
    ((runLocks "lock:rates" [(100, 30), (110, 5), (129, 99)] []).1 =
      true :: [(110, 5), (129, 99)].map (fun _ => false)) :=
  ⟨try_lock_excludes.1 100 [] "lock:rates" 30,
    try_lock_excludes.2.1 110 [("lock:rates", "locked", 130)] "lock:rates" 5 "locked"
      (by decide),
    try_lock_excludes.2.2.1 100 [] "lock:rates" 30 (by decide),
    try_lock_excludes.2.2.2 [] "lock:rates" 100 30 [(110, 5), (129, 99)] (by decide)
      (by decide)⟩
